import Mathlib

/-
  Verification development for the Turo CSV acquisition engine
  (download_turo_csv.py).  The definitions below are a shallow embedding of
  the script's data flow: pure fragments become Lean functions, browser
  interactions become oracle fields recording what the driver would have
  answered, and the script's control flow over those answers is translated
  statement by statement.  Line numbers in the doc comments refer to
  download_turo_csv.py.
-/

set_option maxHeartbeats 1000000

namespace TuroDl

/-- UTC wall-clock instant truncated to whole seconds, the value
`datetime.utcnow()` feeds into `strftime("%Y%m%d-%H%M%S")`
(download_turo_csv.py lines 445, 481, 498, 528, 547). -/
structure DateTime where
  year : Nat
  month : Nat
  day : Nat
  hour : Nat
  minute : Nat
  second : Nat
deriving DecidableEq, Repr

/-- Field bounds that every real `utcnow()` value satisfies; they are exactly
what the fixed-width zero padding of `strftime` needs. -/
def DateTime.valid (t : DateTime) : Prop :=
  t.year < 10000 ∧ t.month < 100 ∧ t.day < 100 ∧
    t.hour < 100 ∧ t.minute < 100 ∧ t.second < 100

instance (t : DateTime) : Decidable t.valid := by
  unfold DateTime.valid; infer_instance

/-- Two-digit zero-padded decimal field (`%m`, `%d`, `%H`, `%M`, `%S`). -/
def pad2 (n : Nat) : List Char :=
  [Nat.digitChar (n / 10 % 10), Nat.digitChar (n % 10)]

/-- Four-digit zero-padded decimal field (`%Y`). -/
def pad4 (n : Nat) : List Char :=
  [Nat.digitChar (n / 1000 % 10), Nat.digitChar (n / 100 % 10),
   Nat.digitChar (n / 10 % 10), Nat.digitChar (n % 10)]

/-- `datetime.strftime("%Y%m%d-%H%M%S")` over the six time fields. -/
def strfStamp (t : DateTime) : String :=
  ⟨pad4 t.year ++ pad2 t.month ++ pad2 t.day ++ ['-'] ++
    pad2 t.hour ++ pad2 t.minute ++ pad2 t.second⟩

/-- Output path construction `CSV_DIR / f"{pre}{stamp}.csv"` with
`CSV_DIR = data/turo_csv` (lines 47, 446, 482, 499, 529, 548). -/
def stampPath (pre : String) (t : DateTime) : String :=
  "data/turo_csv/" ++ pre ++ strfStamp t ++ ".csv"

/-- The export directory as a map from path to file bytes.
`download.save_as` and `open(path, "w"/"wb")` replace whatever the path
previously held. -/
def saveAs (fs : String → Option (List Nat)) (p : String) (content : List Nat) :
    String → Option (List Nat) :=
  fun q => if q = p then some content else fs q

/-- Does the character list `s` start with the pattern `pat`? -/
def charsStartWith : List Char → List Char → Bool
  | [], _ => true
  | _ :: _, [] => false
  | p :: ps, c :: cs => p == c && charsStartWith ps cs

/-- Does the character list `s` contain the pattern `pat` as a contiguous run? -/
def charsContain (pat : List Char) : List Char → Bool
  | [] => pat.isEmpty
  | c :: rest => charsStartWith pat (c :: rest) || charsContain pat rest

/-- Python's `tok in s` substring test. -/
def containsTok (s tok : String) : Bool :=
  charsContain tok.data s.data

/-- ASCII lower-casing of one character, as Python's `str.lower()` acts on the
ASCII URLs, header values and keywords involved here. -/
def lowChar (c : Char) : Char :=
  if 65 ≤ c.toNat ∧ c.toNat ≤ 90 then Char.ofNat (c.toNat + 32) else c

/-- `str.lower()`. -/
def lowerStr (s : String) : String :=
  ⟨s.data.map lowChar⟩

/-- Error kind required by the specification for a missing session artifact. -/
inductive ConfigError
  | missingArtifact
deriving DecidableEq, Repr

/-- Which browsing context `main` constructs. -/
inductive LaunchChoice
  | storageState
  | persistentProfile
deriving DecidableEq, Repr

/-- Branch selection in `main` (lines 566, 578, 609-610): the storage-state
context is used only when `AUTH_STORAGE_STATE` is non-empty (after strip) AND
the file exists; in every other case the persistent local profile is used.
Arguments are the stripped environment value and the artifact-existence bit. -/
def resolveSession (storageStatePath : String) (artifactExists : Bool) : LaunchChoice :=
  if !storageStatePath.isEmpty && artifactExists then
    LaunchChoice.storageState
  else
    LaunchChoice.persistentProfile

/-- Modelled from the spec (section 4.1): `resolve()` is required to fail with a
distinct configuration-error kind when Reusable mode is configured but the
artifact file is missing.  This definition follows the spec's words and exists
only to exhibit the divergence from `resolveSession`, which follows the code. -/
def resolveSessionSpec (storageStatePath : String) (artifactExists : Bool) :
    Except ConfigError LaunchChoice :=
  if storageStatePath.isEmpty then Except.ok LaunchChoice.persistentProfile
  else if artifactExists then Except.ok LaunchChoice.storageState
  else Except.error ConfigError.missingArtifact

/-- The response listener `page.on("response", _maybe_capture_csv)` (line 607)
is installed only inside the storage-state branch of `main`; the
persistent-profile branch (lines 609-623) installs no listener. -/
def snifferRegistered (storageStatePath : String) (artifactExists : Bool) : Bool :=
  match resolveSession storageStatePath artifactExists with
  | LaunchChoice.storageState => true
  | LaunchChoice.persistentProfile => false

/-- One network response observed by `_maybe_capture_csv` (lines 598-605):
`bodyRaises` models `resp.body()` throwing, which the handler swallows. -/
structure NetResponse where
  url : String
  contentType : String
  body : List Nat
  bodyRaises : Bool
deriving DecidableEq, Repr

/-- Match condition of `_maybe_capture_csv` (lines 600-602): URL contains
".csv" (lower-cased) or declared content type contains "text/csv". -/
def respMatches (r : NetResponse) : Bool :=
  containsTok (lowerStr r.url) ".csv" || containsTok (lowerStr r.contentType) "text/csv"

/-- Effect of one response on the single-slot buffer `csv_bytes["buf"]`
(line 603): a matching response whose body call succeeds replaces the slot;
anything else leaves it unchanged. -/
def sniffStep (buf : Option (List Nat)) (r : NetResponse) : Option (List Nat) :=
  if respMatches r && !r.bodyRaises then some r.body else buf

/-- The buffer after the whole run's response stream has been observed. -/
def sniffRun (rs : List NetResponse) : Option (List Nat) :=
  rs.foldl sniffStep none

/-- Responses that actually write the buffer. -/
def goodMatch (r : NetResponse) : Bool :=
  respMatches r && !r.bodyRaises

/-- The exception kind the browser driver throws: all that matters in the
script is which handler swallows it. -/
inductive PwErr
  | pwError
deriving DecidableEq, Repr

/-- Oracle for `looks_like_marketing_shell` (lines 103-136).  For each host
term, `tabFound t` / `linkFound t` is true when the 800 ms `wait_for`
(lines 113, 118) finds the role, and false when it raises the timeout that the
inner `except Exception: pass` swallows.  `linksRaise` models
`page.locator("a")` (line 124) throwing — the only probe in the function whose
exception reaches the classifier's outer handler (lines 134-136).
`linkTexts` is the list of visible link texts `_visible_texts` otherwise
returns (that helper swallows its own exceptions and never raises). -/
structure ShellPage where
  tabFound : String → Bool
  linkFound : String → Bool
  linksRaise : Bool
  linkTexts : List String

/-- `host_terms` (line 110). -/
def hostTerms : List String :=
  ["Transactions", "Earnings", "Payouts", "Trips", "Export", "CSV"]

/-- Marketing keyword alternatives of the regex on lines 128-131. -/
def marketingKeywords : List String :=
  ["Car rental", "Classic car rental", "Convertible", "SUV rental",
   "Become a host", "See more makes", "browse cars"]

/-- `re.search(..., t, re.I)` against the keyword alternation: some keyword
occurs in `t`, case-insensitively. -/
def isMarketingText (t : String) : Bool :=
  marketingKeywords.any (fun k => containsTok (lowerStr t) (lowerStr k))

/-- `marketing_hits` (lines 125-132): how many visible link texts match. -/
def marketingHits (ts : List String) : Nat :=
  ts.countP isMarketingText

/-- Body of `looks_like_marketing_shell` inside its outer `try` (lines
108-133): if any host term is found as a tab or link role the function
returns `False` at once; otherwise the visible link texts are scanned — an
exception while enumerating them escapes to the outer handler — and the
result is `marketing_hits >= 3`. -/
def looksLikeMarketingShellCore (p : ShellPage) : Except PwErr Bool :=
  if hostTerms.any (fun t => p.tabFound t || p.linkFound t) then
    Except.ok false
  else if p.linksRaise then
    Except.error PwErr.pwError
  else
    Except.ok (decide (3 ≤ marketingHits p.linkTexts))

/-- `looks_like_marketing_shell` with its outer handler (lines 134-136):
any escaping exception yields `False` ("if in doubt, don't block"). -/
def looksLikeMarketingShell (p : ShellPage) : Bool :=
  match looksLikeMarketingShellCore p with
  | Except.ok b => b
  | Except.error _ => false

/-- Oracle for one navigation target in `go_to_host_finance` (lines 149-199):
`gotoFails` models `page.goto` (or the settle wait) raising so the guarded
block falls to `except Exception: continue`; `landedUrl` is `page.url` after
the navigation; `shell` feeds `looks_like_marketing_shell`; `financeVisible`
is whether the finance-text probe on line 187 succeeds within its timeout.
The best-effort tab clicks on lines 172-183 only mutate the page toward
making `financeVisible` true and are absorbed into that oracle. -/
structure NavPage where
  gotoFails : Bool
  landedUrl : String
  shell : ShellPage
  financeVisible : Bool

/-- How `go_to_host_finance` ends. -/
inductive NavOutcome
  | success
  | loginRedirect
  | navExhausted
deriving DecidableEq, Repr

/-- Login/auth URL check on line 164: `"login" in cur or "auth" in cur`. -/
def isLoginUrl (u : String) : Bool :=
  containsTok u "login" || containsTok u "auth"

/-- Login/auth/signin URL check in `main` (line 636). -/
def isLoginUrlMain (u : String) : Bool :=
  containsTok u "login" || containsTok u "auth" || containsTok u "signin"

/-- `go_to_host_finance` (lines 149-199) over the candidate target list.  The
second component is the current `page.url` when the function ends
(unchanged by a target whose `goto` failed).  A login/auth URL raises
`RuntimeError("login-redirect")`, which the handler on lines 193-195
re-raises, short-circuiting the remaining targets; a marketing shell or a
target without visible finance text falls through to the next target. -/
def goToHostFinance : List NavPage → String → NavOutcome × String
  | [], cur => (NavOutcome.navExhausted, cur)
  | p :: rest, cur =>
    if p.gotoFails then goToHostFinance rest cur
    else if isLoginUrl p.landedUrl then (NavOutcome.loginRedirect, p.landedUrl)
    else if looksLikeMarketingShell p.shell then goToHostFinance rest p.landedUrl
    else if p.financeVisible then (NavOutcome.success, p.landedUrl)
    else goToHostFinance rest p.landedUrl

/-- Rows the transcoder keeps (line 427): `if any(cells)` — Python string
truthiness keeps a `<tr>` iff some cell text is non-empty after tag
stripping and whitespace normalization. -/
def keptRows (raw : List (List String)) : List (List String) :=
  raw.filter (fun cells => cells.any (fun c => !c.isEmpty))

/-- `max(len(r) for r in rows)` (lines 431, 433), 0 on an empty list. -/
def maxWidth (rows : List (List String)) : Nat :=
  (rows.map List.length).foldr max 0

/-- Synthetic header substitution (lines 430-431): when no `<th>` cell was
found but rows exist, a `col_1 .. col_n` header of the maximal row width is
fabricated. -/
def effHdr (hdr : List String) (rows : List (List String)) : List String :=
  if hdr.isEmpty && !rows.isEmpty then
    (List.range (maxWidth rows)).map (fun i => "col_" ++ toString (i + 1))
  else hdr

/-- `width` (line 433), computed after the header substitution. -/
def tblWidth (hdr : List String) (rows : List (List String)) : Nat :=
  if !hdr.isEmpty then hdr.length
  else if !rows.isEmpty then maxWidth rows
  else 0

/-- Row normalization (lines 437-443): shorter rows are right-padded with
empty strings, longer rows are truncated to the first `w` cells. -/
def normRow (w : Nat) (r : List String) : List String :=
  if r.length < w then r ++ List.replicate (w - r.length) ""
  else if w < r.length then r.take w
  else r

/-- Pure core of `_extract_table_to_csv` for one candidate table
(lines 416-451), taking the `<th>` cell texts and the per-`<tr>` cell texts
the regex extraction produced.  Returns the header and normalized rows
written to the CSV, or `none` when the candidate is rejected
(`width == 0 or not rows`, line 434). -/
def extractTable (hdr0 : List String) (raw : List (List String)) :
    Option (List String × List (List String)) :=
  let rows := keptRows raw
  let hdr := effHdr hdr0 rows
  let w := tblWidth hdr rows
  if w == 0 || rows.isEmpty then none
  else some (hdr, rows.map (normRow w))

/-- The candidate loop of `_extract_table_to_csv` (lines 394-458): candidates
are tried in order, a rejected or throwing candidate falls to the next via
`continue`, and the first accepted one is serialized. -/
def scrapePass (tabs : List (List String × List (List String))) :
    Option (List String × List (List String)) :=
  tabs.findSome? (fun c => extractTable c.1 c.2)

/-- One element matched by a candidate locator in `_find_and_click_csv`
(lines 291-298): `visRaises` models `el.is_visible()` throwing and
`clickRaises` models `el.click()` throwing; either is swallowed by the
per-element `except Exception: pass` and the loop moves on. -/
structure ProbeElem where
  visRaises : Bool
  visible : Bool
  clickRaises : Bool
deriving DecidableEq, Repr

/-- One candidate locator from `_candidate_locators` (lines 239-280):
`makeRaises` models `make()` or `loc.count()` throwing, which the per-locator
`except Exception: continue` swallows. -/
structure CandLoc where
  makeRaises : Bool
  elems : List ProbeElem
deriving DecidableEq, Repr

/-- An element is activated when `is_visible()` returns true and `click()`
succeeds (lines 294-296). -/
def elemActivates (e : ProbeElem) : Bool :=
  !e.visRaises && e.visible && !e.clickRaises

/-- The inner loop `for i in range(min(loc.count(), 8))` (line 291): at most
the first `fuel` (= 8) matches are examined; returns the offset of the element
actually clicked, if any. -/
def scanElems : List ProbeElem → Nat → Option Nat
  | _, 0 => none
  | [], _ + 1 => none
  | e :: rest, fuel + 1 =>
    if elemActivates e then some 0 else (scanElems rest fuel).map (· + 1)

/-- The direct-control phase of `_find_and_click_csv` (lines 286-300): walk the
candidate locators in order, skip a locator whose construction throws, and
within each locator examine only the first eight matches; the result is the
(locator, element) index pair of the activation, if one happened. -/
def directProbe (j : Nat) : List CandLoc → Option (Nat × Nat)
  | [] => none
  | c :: rest =>
    if c.makeRaises then directProbe (j + 1) rest
    else
      match scanElems c.elems 8 with
      | some i => some (j, i)
      | none => directProbe (j + 1) rest

/-- Observable steps of `click_download_and_save`, used to state ordering and
attempt-count properties.  `probeFrame i` is the call `_find_and_click_csv(f)`
on the i-th entry of `page.frames`; `clickPerformed` is an activation click on
an export control; `hookInstalled` is the arming of `page.expect_download`;
`sniffConsulted` is the read of `csv_bytes["buf"]` (line 546);
`scrapeAttempted` is the call to `_extract_table_to_csv` (line 554). -/
inductive Ev
  | probeFrame (i : Nat)
  | clickPerformed
  | hookInstalled
  | sniffConsulted
  | scrapeAttempted
deriving DecidableEq, Repr

/-- Which tier produced the output file. -/
inductive Source
  | primary
  | fromFrame
  | business
  | sniff
  | scrape
deriving DecidableEq, Repr

/-- The filename prefix each tier stamps (lines 482, 499, 529, 548, 446). -/
def prefixOf : Source → String
  | Source.primary => "turo_earnings_"
  | Source.fromFrame => "turo_earnings_"
  | Source.business => "turo_earnings_"
  | Source.sniff => "turo_earnings_sniffed_"
  | Source.scrape => "turo_earnings_scraped_"

/-- One entry of `page.frames` as step 2 of `click_download_and_save` sees it
(lines 488-504).  `clicksCsv` abstracts the result of `_find_and_click_csv(f)`;
`raises` models the guarded block throwing before the URL check (swallowed by
`except Exception: continue`); `dlArrives` is whether `page.expect_download`
observes a download within its 30 s window after this frame's click. -/
structure Frame where
  isMain : Bool
  url : String
  raises : Bool
  clicksCsv : Bool
  dlArrives : Bool
deriving DecidableEq, Repr

/-- The ad/analytics URL tokens excluded on line 492. -/
def adTokens : List String :=
  ["ads", "doubleclick", "googletag", "tracking"]

/-- `any(x in (f.url or "") for x in [...])` (line 492). -/
def excludedUrl (url : String) : Bool :=
  adTokens.any (fun tok => containsTok url tok)

/-- Step 2 of `click_download_and_save` (lines 488-504): iterate the frames
with their indices, skipping the main frame, a throwing frame, and any frame
whose URL contains an ad/analytics token.  A successful probe clicks, then
arms `expect_download`; if no download arrives the timeout is swallowed by
the frame's `except` and the loop continues.  Returns the events of the pass
and the saved path on success. -/
def runFrames (t : DateTime) : Nat → List Frame → List Ev × Option String
  | _, [] => ([], none)
  | i, f :: rest =>
    if f.isMain then runFrames t (i + 1) rest
    else if f.raises then runFrames t (i + 1) rest
    else if excludedUrl f.url then runFrames t (i + 1) rest
    else if f.clicksCsv then
      if f.dlArrives then
        ([Ev.probeFrame i, Ev.clickPerformed, Ev.hookInstalled],
          some (stampPath "turo_earnings_" t))
      else
        let r := runFrames t (i + 1) rest
        (Ev.probeFrame i :: Ev.clickPerformed :: Ev.hookInstalled :: r.1, r.2)
    else
      let r := runFrames t (i + 1) rest
      (Ev.probeFrame i :: r.1, r.2)

/-- One of the five "Download CSV" locators probed on the business earnings
page (lines 515-521): `visRaises` models `loc.is_visible()` throwing,
`clickOk` whether `loc.click(timeout=3000)` succeeds, `dlArrives` whether the
armed `expect_download` sees the download.  Any failure is swallowed by the
per-locator `except Exception: pass` (line 533). -/
structure BizLoc where
  visRaises : Bool
  visible : Bool
  clickOk : Bool
  dlArrives : Bool
deriving DecidableEq, Repr

/-- Step 3 of `click_download_and_save` (lines 507-536): on the business page,
each candidate locator is tested for visibility; for a visible one the
download hook is armed first (`with page.expect_download(...)`) and the click
is performed inside it (lines 525-526). -/
def runBiz (t : DateTime) : List BizLoc → List Ev × Option String
  | [] => ([], none)
  | l :: rest =>
    if l.visRaises then runBiz t rest
    else if l.visible then
      if l.clickOk then
        if l.dlArrives then
          ([Ev.hookInstalled, Ev.clickPerformed], some (stampPath "turo_earnings_" t))
        else
          let r := runBiz t rest
          (Ev.hookInstalled :: Ev.clickPerformed :: r.1, r.2)
      else
        let r := runBiz t rest
        (Ev.hookInstalled :: r.1, r.2)
    else runBiz t rest

/-- How `click_download_and_save` ends: a saved capture, the uncaught
`expect_download` timeout of the primary attempt (lines 478-479 carry no
`try`), or `RuntimeError("Could not obtain CSV ...")` (line 558). -/
inductive Outcome
  | captured (path : String) (src : Source)
  | downloadTimeout
  | exhausted
deriving DecidableEq, Repr

/-- Inputs `click_download_and_save` consumes: the primary probe result on the
current page, the frame list, the business-page navigation and locators, the
sniffer buffer as of the fallback phase, the candidate tables for the
scraper, and the current UTC second used for filename stamps. -/
structure DlEnv where
  pageClicksCsv : Bool
  primaryDlArrives : Bool
  frames : List Frame
  bizNavOk : Bool
  bizLocs : List BizLoc
  sniffBuf : Option (List Nat)
  tables : List (List String × List (List String))
  now : DateTime

/-- `click_download_and_save` (lines 464-558).  Step 1: if
`_find_and_click_csv(page)` returns true — the click has already happened
inside it — `expect_download` is armed afterwards with an empty body
(lines 477-479); a missing download raises out of the function.  Step 2:
the frame pass.  Step 3: the business-earnings page.  Step 4: the sniffer
buffer is consulted once, then the table scraper is attempted once, and
with both empty the function raises the exhaustion error. -/
def clickDownloadAndSave (env : DlEnv) : List Ev × Outcome :=
  if env.pageClicksCsv then
    if env.primaryDlArrives then
      ([Ev.clickPerformed, Ev.hookInstalled],
        Outcome.captured (stampPath "turo_earnings_" env.now) Source.primary)
    else
      ([Ev.clickPerformed, Ev.hookInstalled], Outcome.downloadTimeout)
  else
    let fr := runFrames env.now 0 env.frames
    match fr.2 with
    | some p => (fr.1, Outcome.captured p Source.fromFrame)
    | none =>
      let bz := if env.bizNavOk then runBiz env.now env.bizLocs else ([], none)
      match bz.2 with
      | some p => (fr.1 ++ bz.1, Outcome.captured p Source.business)
      | none =>
        let evs := fr.1 ++ bz.1 ++ [Ev.sniffConsulted]
        match env.sniffBuf with
        | some _ =>
          (evs, Outcome.captured (stampPath "turo_earnings_sniffed_" env.now) Source.sniff)
        | none =>
          match scrapePass env.tables with
          | some _ =>
            (evs ++ [Ev.scrapeAttempted],
              Outcome.captured (stampPath "turo_earnings_scraped_" env.now) Source.scrape)
          | none => (evs ++ [Ev.scrapeAttempted], Outcome.exhausted)

/-- Terminal outcome of `main` (lines 628-645). -/
inductive MainOutcome
  | acquired (o : Outcome)
  | invalidSession
  | marketingShellDetected
  | navFailure
deriving DecidableEq, Repr

/-- The acquisition part of `main` (lines 628-645): navigate first; only when
`go_to_host_finance` returned normally is `click_download_and_save` — the
Control Discovery Cascade and its fallbacks — invoked (the Bool records that
invocation).  When navigation raised, the handler classifies the failure from
the current URL and page: login/auth/signin in the URL means an invalid
session, a marketing shell means a device-bound cookie, anything else
re-raises the navigation error. -/
def mainRun (pages : List NavPage) (initUrl : String) (finalShell : ShellPage)
    (env : DlEnv) : Bool × MainOutcome :=
  match goToHostFinance pages initUrl with
  | (NavOutcome.success, _) => (true, MainOutcome.acquired (clickDownloadAndSave env).2)
  | (NavOutcome.loginRedirect, cur) =>
    if isLoginUrlMain cur then (false, MainOutcome.invalidSession)
    else if looksLikeMarketingShell finalShell then
      (false, MainOutcome.marketingShellDetected)
    else (false, MainOutcome.navFailure)
  | (NavOutcome.navExhausted, cur) =>
    if isLoginUrlMain cur then (false, MainOutcome.invalidSession)
    else if looksLikeMarketingShell finalShell then
      (false, MainOutcome.marketingShellDetected)
    else (false, MainOutcome.navFailure)

/-- A concrete capture instant. -/
def t0 : DateTime := ⟨2025, 3, 14, 9, 26, 53⟩

/-- The next second after `t0`. -/
def t1 : DateTime := ⟨2025, 3, 14, 9, 26, 54⟩

/-- A run environment in which nothing succeeds: no primary control, no
frames, no business page, empty sniffer buffer, no tables. -/
def emptyEnv : DlEnv :=
  { pageClicksCsv := false, primaryDlArrives := false, frames := [],
    bizNavOk := false, bizLocs := [], sniffBuf := none, tables := [], now := t0 }

/-- Primary attempt succeeds: `_find_and_click_csv(page)` returns true and the
download arrives. -/
def primaryEnv : DlEnv :=
  { emptyEnv with pageClicksCsv := true, primaryDlArrives := true }

/-- A second run whose capture lands within the same UTC second as
`primaryEnv`'s (identical `now`), differing elsewhere. -/
def primaryEnvB : DlEnv :=
  { primaryEnv with bizNavOk := true }

/-- Primary control found and clicked, but the download never materializes
within the 30 s window; the sniffer buffer even holds data. -/
def timeoutEnv : DlEnv :=
  { emptyEnv with
    pageClicksCsv := true
    primaryDlArrives := false
    sniffBuf := some [49, 50] }

/-- Cascade finds nothing anywhere, but the sniffer buffer holds data and a
scrapable table is present. -/
def sniffHitEnv : DlEnv :=
  { emptyEnv with
    sniffBuf := some [49, 50]
    tables := [(["A"], [["x"]])] }

/-- An ad frame that does contain a working export control. -/
def adFrame : Frame :=
  { isMain := false, url := "https://ads.vendor.example/frame7",
    raises := false, clicksCsv := true, dlArrives := true }

/-- Environment in which the only matching export control lives in the
excluded ad frame. -/
def adFrameEnv : DlEnv :=
  { emptyEnv with frames := [adFrame] }

/-- A page oracle on which every probe finds nothing and no links are
visible. -/
def blankShell : ShellPage :=
  { tabFound := fun _ => false, linkFound := fun _ => false,
    linksRaise := false, linkTexts := [] }

/-- A marketing-shell page on which every landmark `wait_for` raised its
(swallowed) timeout and the link scan sees three marketing texts. -/
def marketingShellCE : ShellPage :=
  { tabFound := fun _ => false, linkFound := fun _ => false,
    linksRaise := false,
    linkTexts := ["Car rental deals in Boston", "Become a host today",
                  "SUV rental near me"] }

/-- A page on which no landmark is found and enumerating the links throws, so
the exception escapes to the classifier's outer handler. -/
def linksRaiseShell : ShellPage :=
  { tabFound := fun _ => false, linkFound := fun _ => false,
    linksRaise := true, linkTexts := [] }

/-- A navigation target that redirects to the login page. -/
def loginPage : NavPage :=
  { gotoFails := false, landedUrl := "https://turo.com/us/en/login?redirect=home",
    shell := blankShell, financeVisible := false }

/-- A healthy authenticated target whose classifier run hits the outer-handler
exception (`linksRaiseShell`) and whose finance text is visible. -/
def financePage : NavPage :=
  { gotoFails := false, landedUrl := "https://turo.com/host/transactions",
    shell := linksRaiseShell, financeVisible := true }

/-- A matching network response (some earlier export fetch). -/
def respA : NetResponse :=
  { url := "https://turo.com/api/export/earnings.csv", contentType := "",
    body := [49], bodyRaises := false }

/-- A later matching network response with a different body. -/
def respB : NetResponse :=
  { url := "https://turo.com/api/export/earnings2.csv",
    contentType := "text/csv; charset=utf-8", body := [50], bodyRaises := false }

/-- A non-matching response. -/
def respC : NetResponse :=
  { url := "https://turo.com/api/profile", contentType := "application/json",
    body := [51], bodyRaises := false }

/-- An invisible matched element. -/
def hiddenElem : ProbeElem := { visRaises := false, visible := false, clickRaises := false }

/-- A visible matched element whose click succeeds. -/
def liveElem : ProbeElem := { visRaises := false, visible := true, clickRaises := false }

/-- A locator with eight invisible matches followed by a visible ninth:
the visible control sits at offset 8 of the match list. -/
def lateLoc : CandLoc :=
  { makeRaises := false, elems := List.replicate 8 hiddenElem ++ [liveElem] }

/-- A locator whose third match (offset 2) is the first visible one. -/
def midLoc : CandLoc :=
  { makeRaises := false, elems := [hiddenElem, hiddenElem, liveElem, liveElem] }

theorem stringExt {s t : String} (h : s.data = t.data) : s = t :=
  String.ext h

theorem digitChar_inj_lt :
    ∀ a, a < 10 → ∀ b, b < 10 → Nat.digitChar a = Nat.digitChar b → a = b := by
  decide

theorem strfStamp_inj {u1 u2 : DateTime} (h1 : u1.valid) (h2 : u2.valid)
    (h : strfStamp u1 = strfStamp u2) : u1 = u2 := by
  obtain ⟨hy1, hmo1, hd1, hh1, hmi1, hs1⟩ := h1
  obtain ⟨hy2, hmo2, hd2, hh2, hmi2, hs2⟩ := h2
  have hdd : pad4 u1.year ++ pad2 u1.month ++ pad2 u1.day ++ ['-'] ++
      pad2 u1.hour ++ pad2 u1.minute ++ pad2 u1.second
      = pad4 u2.year ++ pad2 u2.month ++ pad2 u2.day ++ ['-'] ++
      pad2 u2.hour ++ pad2 u2.minute ++ pad2 u2.second := congrArg String.data h
  simp only [pad4, pad2, List.cons_append, List.nil_append, List.cons.injEq,
    and_true, true_and] at hdd
  obtain ⟨e1, e2, e3, e4, e5, e6, e7, e8, e9, e10, e11, e12, e13, e14⟩ := hdd
  have tenPos : (0 : Nat) < 10 := by norm_num
  have g1 := digitChar_inj_lt _ (Nat.mod_lt _ tenPos) _ (Nat.mod_lt _ tenPos) e1
  have g2 := digitChar_inj_lt _ (Nat.mod_lt _ tenPos) _ (Nat.mod_lt _ tenPos) e2
  have g3 := digitChar_inj_lt _ (Nat.mod_lt _ tenPos) _ (Nat.mod_lt _ tenPos) e3
  have g4 := digitChar_inj_lt _ (Nat.mod_lt _ tenPos) _ (Nat.mod_lt _ tenPos) e4
  have g5 := digitChar_inj_lt _ (Nat.mod_lt _ tenPos) _ (Nat.mod_lt _ tenPos) e5
  have g6 := digitChar_inj_lt _ (Nat.mod_lt _ tenPos) _ (Nat.mod_lt _ tenPos) e6
  have g7 := digitChar_inj_lt _ (Nat.mod_lt _ tenPos) _ (Nat.mod_lt _ tenPos) e7
  have g8 := digitChar_inj_lt _ (Nat.mod_lt _ tenPos) _ (Nat.mod_lt _ tenPos) e8
  have g9 := digitChar_inj_lt _ (Nat.mod_lt _ tenPos) _ (Nat.mod_lt _ tenPos) e9
  have g10 := digitChar_inj_lt _ (Nat.mod_lt _ tenPos) _ (Nat.mod_lt _ tenPos) e10
  have g11 := digitChar_inj_lt _ (Nat.mod_lt _ tenPos) _ (Nat.mod_lt _ tenPos) e11
  have g12 := digitChar_inj_lt _ (Nat.mod_lt _ tenPos) _ (Nat.mod_lt _ tenPos) e12
  have g13 := digitChar_inj_lt _ (Nat.mod_lt _ tenPos) _ (Nat.mod_lt _ tenPos) e13
  have g14 := digitChar_inj_lt _ (Nat.mod_lt _ tenPos) _ (Nat.mod_lt _ tenPos) e14
  have fy : u1.year = u2.year := by omega
  have fmo : u1.month = u2.month := by omega
  have fd : u1.day = u2.day := by omega
  have fh : u1.hour = u2.hour := by omega
  have fmi : u1.minute = u2.minute := by omega
  have fs : u1.second = u2.second := by omega
  calc u1 = ⟨u1.year, u1.month, u1.day, u1.hour, u1.minute, u1.second⟩ := rfl
    _ = ⟨u2.year, u2.month, u2.day, u2.hour, u2.minute, u2.second⟩ := by
        rw [fy, fmo, fd, fh, fmi, fs]
    _ = u2 := rfl

theorem strfStamp_data_length (t : DateTime) : (strfStamp t).data.length = 15 := by
  simp [strfStamp, pad4, pad2]

theorem stampPath_data_length (pre : String) (t : DateTime) :
    (stampPath pre t).data.length = pre.data.length + 33 := by
  have hbase : ("data/turo_csv/" : String).data.length = 14 := rfl
  have hext : (".csv" : String).data.length = 4 := rfl
  simp only [stampPath, String.data_append, List.length_append,
    strfStamp_data_length, hbase, hext]
  omega

theorem stampPath_inj_same_len {p1 p2 : String} (hl : p1.data.length = p2.data.length)
    {u1 u2 : DateTime} (h : stampPath p1 u1 = stampPath p2 u2) :
    p1 = p2 ∧ strfStamp u1 = strfStamp u2 := by
  have hdd : "data/turo_csv/".data ++ (p1.data ++ ((strfStamp u1).data ++ ".csv".data))
      = "data/turo_csv/".data ++ (p2.data ++ ((strfStamp u2).data ++ ".csv".data)) := by
    have h0 := congrArg String.data h
    simp only [stampPath, String.data_append, List.append_assoc] at h0
    exact h0
  have h1 := List.append_cancel_left hdd
  have h2 := List.append_inj h1 hl
  refine ⟨stringExt h2.1, stringExt (List.append_cancel_right h2.2)⟩

theorem stampPath_src_inj {s1 s2 : Source} {u1 u2 : DateTime}
    (h1 : u1.valid) (h2 : u2.valid)
    (h : stampPath (prefixOf s1) u1 = stampPath (prefixOf s2) u2) : u1 = u2 := by
  cases s1 <;> cases s2 <;>
    first
    | exact strfStamp_inj h1 h2 (stampPath_inj_same_len (by decide) h).2
    | exact absurd (congrArg (fun s : String => s.data.length) h)
        (by simp only [stampPath_data_length]; decide)

theorem runFrames_path {t : DateTime} {p : String} :
    ∀ {i : Nat} {l : List Frame}, (runFrames t i l).2 = some p →
      p = stampPath "turo_earnings_" t := by
  intro i l
  induction l generalizing i with
  | nil => intro h; simp [runFrames] at h
  | cons f rest ih =>
    intro h
    simp only [runFrames] at h
    split at h
    · exact ih h
    · split at h
      · exact ih h
      · split at h
        · exact ih h
        · split at h
          · split at h
            · simp only at h
              exact (Option.some.injEq _ _ ▸ h).symm
            · exact ih h
          · exact ih h

theorem runBiz_path {t : DateTime} {p : String} :
    ∀ {l : List BizLoc}, (runBiz t l).2 = some p → p = stampPath "turo_earnings_" t := by
  intro l
  induction l with
  | nil => intro h; simp [runBiz] at h
  | cons b rest ih =>
    intro h
    simp only [runBiz] at h
    split at h
    · exact ih h
    · split at h
      · split at h
        · split at h
          · simp only at h
            exact (Option.some.injEq _ _ ▸ h).symm
          · exact ih h
        · exact ih h
      · exact ih h

theorem captured_path {env : DlEnv} {p : String} {s : Source}
    (h : (clickDownloadAndSave env).2 = Outcome.captured p s) :
    p = stampPath (prefixOf s) env.now := by
  cases hpc : env.pageClicksCsv with
  | true =>
    cases hpd : env.primaryDlArrives with
    | true =>
      simp [clickDownloadAndSave, hpc, hpd] at h
      obtain ⟨hp, hs⟩ := h
      cases hs
      exact hp.symm
    | false => simp [clickDownloadAndSave, hpc, hpd] at h
  | false =>
    cases hfr : (runFrames env.now 0 env.frames).2 with
    | some q =>
      simp [clickDownloadAndSave, hpc, hfr] at h
      obtain ⟨hp, hs⟩ := h
      cases hs
      rw [← hp]
      exact runFrames_path hfr
    | none =>
      cases hbz : env.bizNavOk with
      | true =>
        cases hrb : (runBiz env.now env.bizLocs).2 with
        | some q =>
          simp [clickDownloadAndSave, hpc, hfr, hbz, hrb] at h
          obtain ⟨hp, hs⟩ := h
          cases hs
          rw [← hp]
          exact runBiz_path hrb
        | none =>
          cases hsb : env.sniffBuf with
          | some buf =>
            simp [clickDownloadAndSave, hpc, hfr, hbz, hrb, hsb] at h
            obtain ⟨hp, hs⟩ := h
            cases hs
            exact hp.symm
          | none =>
            cases hsp : scrapePass env.tables with
            | some tab =>
              simp [clickDownloadAndSave, hpc, hfr, hbz, hrb, hsb, hsp] at h
              obtain ⟨hp, hs⟩ := h
              cases hs
              exact hp.symm
            | none =>
              simp [clickDownloadAndSave, hpc, hfr, hbz, hrb, hsb, hsp] at h
      | false =>
        cases hsb : env.sniffBuf with
        | some buf =>
          simp [clickDownloadAndSave, hpc, hfr, hbz, hsb] at h
          obtain ⟨hp, hs⟩ := h
          cases hs
          exact hp.symm
        | none =>
          cases hsp : scrapePass env.tables with
          | some tab =>
            simp [clickDownloadAndSave, hpc, hfr, hbz, hsb, hsp] at h
            obtain ⟨hp, hs⟩ := h
            cases hs
            exact hp.symm
          | none =>
            simp [clickDownloadAndSave, hpc, hfr, hbz, hsb, hsp] at h

/-- C3 (amended): capture filenames are stamped with the UTC timestamp to the
second, so captures at distinct second-truncated instants — in particular any
two captures more than one second apart — get distinct file paths, whichever
tier produced them; every capture path has exactly this stamped form; but two
captures of the same kind within the same UTC second get the SAME path, and
saving the second silently replaces the first's content (nothing disambiguates
or serializes them). -/
theorem c3_stamp_uniqueness (u1 u2 : DateTime) (h1 : u1.valid) (h2 : u2.valid) :
    (∀ s1 s2 : Source, u1 ≠ u2 →
      stampPath (prefixOf s1) u1 ≠ stampPath (prefixOf s2) u2) ∧
    (∀ (env : DlEnv) (p : String) (s : Source),
      (clickDownloadAndSave env).2 = Outcome.captured p s →
      p = stampPath (prefixOf s) env.now) ∧
    (∀ (s : Source) (fs : String → Option (List Nat)) (c1 c2 : List Nat),
      saveAs (saveAs fs (stampPath (prefixOf s) u1) c1) (stampPath (prefixOf s) u1) c2
        (stampPath (prefixOf s) u1) = some c2) := by
  refine ⟨?_, ?_, ?_⟩
  · intro s1 s2 hne h
    exact hne (stampPath_src_inj h1 h2 h)
  · intro env p s h
    exact captured_path h
  · intro s fs c1 c2
    simp [saveAs]

/-- C3 witness: the concrete instants `t0` and `t1` (one second apart) give
distinct primary capture paths. -/
theorem c3_stamp_uniqueness_witness :
    stampPath (prefixOf Source.primary) t0 ≠ stampPath (prefixOf Source.primary) t1 :=
  (c3_stamp_uniqueness t0 t1 (by decide) (by decide)).1
    Source.primary Source.primary (by decide)

/-- C3 counterexample to the claim as stated: two runs capturing within the
same UTC second (`primaryEnv` and `primaryEnvB` share `now = t0`) produce the
very same file path, and saving the second capture's bytes replaces the
first's — the overwrite is silent, with no disambiguation or serialization. -/
theorem c3_counterexample :
    (clickDownloadAndSave primaryEnv).2
        = Outcome.captured (stampPath "turo_earnings_" t0) Source.primary ∧
    (clickDownloadAndSave primaryEnvB).2
        = Outcome.captured (stampPath "turo_earnings_" t0) Source.primary ∧
    saveAs (saveAs (fun _ => none) (stampPath "turo_earnings_" t0) [49])
        (stampPath "turo_earnings_" t0) [50] (stampPath "turo_earnings_" t0)
      = some [50] ∧ (49 : Nat) ≠ 50 := by
  refine ⟨rfl, rfl, ?_, by decide⟩
  simp [saveAs]

/-- C1 counterexample: with a session-artifact path supplied via the
environment but the artifact file absent, `main` raises no error of any kind —
the branch condition on line 578 simply fails and the run proceeds on the
persistent local profile (line 609), exactly the silent fallback the claim
rules out.  `resolveSessionSpec`, which follows the spec's words, shows what
was required instead. -/
theorem c1_counterexample :
    resolveSession "auth/storage_state.json" false = LaunchChoice.persistentProfile ∧
    resolveSessionSpec "auth/storage_state.json" false
      = Except.error ConfigError.missingArtifact :=
  ⟨rfl, rfl⟩

/-- C1 (amended): if the run is configured in Reusable mode (a non-empty
session-artifact path is supplied) but the artifact file does not exist, the
program does NOT fail: it silently falls back to the interactive /
persistent-profile mode within that run — `main` has no configuration-error
kind at all, as the spec-modelled `resolveSessionSpec` contrast shows. -/
theorem c1_missing_artifact_falls_back (path : String) (hne : path.isEmpty = false) :
    resolveSession path false = LaunchChoice.persistentProfile ∧
    resolveSessionSpec path false = Except.error ConfigError.missingArtifact := by
  constructor
  · simp [resolveSession]
  · simp [resolveSessionSpec, hne]

/-- C1 witness at the concrete configuration of `c1_counterexample`. -/
theorem c1_missing_artifact_falls_back_witness :
    resolveSession "auth/storage_state.json" false = LaunchChoice.persistentProfile ∧
    resolveSessionSpec "auth/storage_state.json" false
      = Except.error ConfigError.missingArtifact :=
  c1_missing_artifact_falls_back "auth/storage_state.json" (by decide)

/-- C2: at the failing input — a primary capture attempt on the host dashboard
in which `_find_and_click_csv(page)` finds and clicks the export control — the
activation click strictly precedes the installation of the
download-interception hook: `page.expect_download` is armed (line 478, with an
empty body) only after the click inside `_find_and_click_csv` (line 477) has
already happened.  The trace holds whether or not the download then arrives,
so a download event firing synchronously with the click is armed-for too
late.  (Only the business-earnings path, lines 525-526, arms the hook before
clicking.) -/
theorem c2_click_precedes_hook :
    (clickDownloadAndSave primaryEnv).1 = [Ev.clickPerformed, Ev.hookInstalled] ∧
    (clickDownloadAndSave timeoutEnv).1 = [Ev.clickPerformed, Ev.hookInstalled] ∧
    List.indexOf Ev.clickPerformed (clickDownloadAndSave primaryEnv).1 = 0 ∧
    List.indexOf Ev.hookInstalled (clickDownloadAndSave primaryEnv).1 = 1 := by
  refine ⟨rfl, rfl, by decide, by decide⟩

theorem sniffRun_foldl (rs : List NetResponse) :
    ∀ acc : Option (List Nat),
      rs.foldl sniffStep acc
        = match rs.reverse.find? goodMatch with
          | some r => some r.body
          | none => acc := by
  induction rs using List.reverseRecOn with
  | nil => intro acc; simp
  | append_singleton l r ih =>
    intro acc
    rw [List.foldl_append, List.reverse_append]
    simp only [List.foldl_cons, List.foldl_nil, List.reverse_cons, List.reverse_nil,
      List.nil_append, List.singleton_append]
    by_cases hg : goodMatch r
    · rw [List.find?_cons_of_pos _ hg]
      have hg2 : (respMatches r && !r.bodyRaises) = true := hg
      simp [sniffStep, hg2]
    · rw [List.find?_cons_of_neg _ hg]
      have hg2 : (respMatches r && !r.bodyRaises) = false := by
        simpa [goodMatch] using hg
      simp only [sniffStep, hg2, Bool.false_eq_true, if_false]
      exact ih acc

/-- C8 (amended): the network sniffer is a passive observer writing matching
response bodies into the single-slot buffer `csv_bytes["buf"]`, where the last
match wins — but it is registered only in storage-state (Reusable-mode) runs;
a persistent-profile (interactive) run installs no response observer at
all. -/
theorem c8_sniffer_registration_and_slot (path : String) (fileExists : Bool) :
    (snifferRegistered path fileExists = true ↔
      (path.isEmpty = false ∧ fileExists = true)) ∧
    (∀ rs : List NetResponse,
      sniffRun rs = (rs.reverse.find? goodMatch).map NetResponse.body) := by
  constructor
  · by_cases hp : path.isEmpty <;> by_cases hf : fileExists <;>
      simp [snifferRegistered, resolveSession, hp, hf]
  · intro rs
    have h := sniffRun_foldl rs none
    unfold sniffRun
    rw [h]
    cases rs.reverse.find? goodMatch <;> simp

/-- C8 witness: a Reusable-mode run registers the sniffer, and with two
matching responses in the stream the buffer ends with the later body. -/
theorem c8_sniffer_witness :
    snifferRegistered "auth/storage_state.json" true = true ∧
    sniffRun [respA, respC, respB] = some [50] := by
  constructor
  · exact (c8_sniffer_registration_and_slot "auth/storage_state.json" true).1.mpr
      ⟨by decide, rfl⟩
  · rw [(c8_sniffer_registration_and_slot "" false).2 [respA, respC, respB]]
    decide

/-- C8 counterexample to the claim as stated: the sniffer is NOT registered
regardless of session mode — an interactive-mode run (no artifact path) and a
run whose supplied artifact is missing both take the persistent-profile
branch, which installs no response observer. -/
theorem c8_counterexample :
    snifferRegistered "" true = false ∧
    snifferRegistered "auth/storage_state.json" false = false :=
  ⟨rfl, rfl⟩

/-- C9 (amended): only an exception escaping to the classifier's outer handler
— one raised while enumerating the page's links after no landmark matched —
makes `looks_like_marketing_shell` return false (not a marketing shell), so
such an inspection error never causes a reachable target to be skipped as
marketing: navigation proceeds to the finance check and succeeds when finance
text is visible.  Exceptions inside individual landmark probes, by contrast,
are swallowed and inspection continues. -/
theorem c9_outer_error_returns_false (p : ShellPage) (e : PwErr)
    (h : looksLikeMarketingShellCore p = Except.error e) :
    looksLikeMarketingShell p = false ∧
    (∀ (pg : NavPage) (rest : List NavPage) (cur : String),
      pg.shell = p → pg.gotoFails = false → isLoginUrl pg.landedUrl = false →
      pg.financeVisible = true →
      goToHostFinance (pg :: rest) cur = (NavOutcome.success, pg.landedUrl)) := by
  have hf : looksLikeMarketingShell p = false := by
    simp [looksLikeMarketingShell, h]
  refine ⟨hf, ?_⟩
  intro pg rest cur hsh hg hl hv
  simp [goToHostFinance, hg, hl, hsh, hf, hv]

/-- C9 witness: a concrete page whose link enumeration throws is classified
non-marketing, and the navigation with that page reaches success rather than
skipping it. -/
theorem c9_outer_error_witness :
    looksLikeMarketingShell linksRaiseShell = false ∧
    goToHostFinance [financePage] "about:blank"
      = (NavOutcome.success, "https://turo.com/host/transactions") := by
  have h := c9_outer_error_returns_false linksRaiseShell PwErr.pwError rfl
  exact ⟨h.1, h.2 financePage [] "about:blank" rfl rfl (by decide) rfl⟩

/-- C9 counterexample to the claim as stated: on `marketingShellCE` every
landmark `wait_for` raises its (swallowed) timeout — the all-false probe
oracles — so exceptions do occur while the classifier inspects the page, yet
the classifier returns true, not false: an inner-probe exception does not
force a non-marketing result. -/
theorem c9_counterexample :
    hostTerms.all
        (fun t => !(marketingShellCE.tabFound t || marketingShellCE.linkFound t)) = true ∧
    looksLikeMarketingShell marketingShellCE = true := by
  exact ⟨rfl, by decide⟩

theorem goToHostFinance_login_url :
    ∀ (l : List NavPage) (cur u : String),
      goToHostFinance l cur = (NavOutcome.loginRedirect, u) → isLoginUrl u = true := by
  intro l
  induction l with
  | nil => intro cur u h; simp [goToHostFinance] at h
  | cons p rest ih =>
    intro cur u h
    simp only [goToHostFinance] at h
    split at h
    · exact ih cur u h
    · split at h
      · rename_i hlog
        injection h with h1 h2
        rw [← h2]
        exact hlog
      · split at h
        · exact ih p.landedUrl u h
        · split at h
          · injection h with h1 h2
            cases h1
          · exact ih p.landedUrl u h

/-- C6: when a navigation lands on a URL matching the login/auth pattern, the
classification short-circuits the remaining candidate targets — the loop in
`go_to_host_finance` re-raises `RuntimeError("login-redirect")` at that point
regardless of the targets still pending — and `main` turns it into the
terminal invalid-session failure without ever invoking
`click_download_and_save` (the Control Discovery Cascade): the Bool in
`mainRun`'s result records that invocation, and it is false. -/
theorem c6_login_redirect_terminal (pages : List NavPage) (initUrl : String)
    (finalShell : ShellPage) (env : DlEnv)
    (h : (goToHostFinance pages initUrl).1 = NavOutcome.loginRedirect) :
    mainRun pages initUrl finalShell env = (false, MainOutcome.invalidSession) ∧
    (∀ (p : NavPage) (rest : List NavPage) (cur : String),
      p.gotoFails = false → isLoginUrl p.landedUrl = true →
      goToHostFinance (p :: rest) cur = (NavOutcome.loginRedirect, p.landedUrl)) := by
  constructor
  · rcases hgo : goToHostFinance pages initUrl with ⟨o, u⟩
    rw [hgo] at h
    have ho : o = NavOutcome.loginRedirect := h
    subst ho
    have hurl := goToHostFinance_login_url pages initUrl u hgo
    have hmain : isLoginUrlMain u = true := by
      unfold isLoginUrl at hurl
      unfold isLoginUrlMain
      rw [hurl]
      simp
    simp [mainRun, hgo, hmain]
  · intro p rest cur hg hl
    simp [goToHostFinance, hg, hl]

/-- C6 witness: with the first target redirecting to the login URL, the run
ends invalid-session with the cascade never invoked, whatever remaining
targets or acquisition oracles were configured. -/
theorem c6_login_redirect_terminal_witness :
    mainRun [loginPage] "https://turo.com/host/transactions" blankShell emptyEnv
      = (false, MainOutcome.invalidSession) ∧
    goToHostFinance [loginPage] "about:blank"
      = (NavOutcome.loginRedirect, "https://turo.com/us/en/login?redirect=home") := by
  have h := c6_login_redirect_terminal [loginPage] "https://turo.com/host/transactions"
    blankShell emptyEnv (by decide)
  exact ⟨h.1, h.2 loginPage [] "about:blank" rfl (by decide)⟩

theorem scanElems_lt {es : List ProbeElem} :
    ∀ {fuel i : Nat}, scanElems es fuel = some i → i < fuel := by
  induction es with
  | nil =>
    intro fuel i h
    cases fuel <;> simp [scanElems] at h
  | cons e rest ih =>
    intro fuel i h
    cases fuel with
    | zero => simp [scanElems] at h
    | succ n =>
      simp only [scanElems] at h
      split at h
      · simp only [Option.some.injEq] at h
        omega
      · rcases ho : scanElems rest n with _ | j
        · rw [ho] at h
          simp at h
        · rw [ho] at h
          simp at h
          have := ih ho
          omega

theorem scanElems_none {es : List ProbeElem} :
    ∀ {fuel : Nat},
      (∀ k, k < es.length → elemActivates (es.getD k hiddenElem) = true → fuel ≤ k) →
      scanElems es fuel = none := by
  induction es with
  | nil =>
    intro fuel h
    cases fuel <;> rfl
  | cons e rest ih =>
    intro fuel h
    cases fuel with
    | zero => rfl
    | succ n =>
      have he : elemActivates e = false := by
        by_contra hc
        have hkt : elemActivates e = true := by
          revert hc; cases elemActivates e <;> simp
        have := h 0 (by simp) (by simpa using hkt)
        omega
      have hr : scanElems rest n = none := by
        apply ih
        intro k hk hact
        have := h (k + 1) (by simpa using Nat.succ_lt_succ hk)
          (by simpa [List.getD_cons_succ] using hact)
        omega
      simp [scanElems, he, hr]

theorem directProbe_lt :
    ∀ {locs : List CandLoc} {j0 j i : Nat}, directProbe j0 locs = some (j, i) → i < 8 := by
  intro locs
  induction locs with
  | nil => intro j0 j i h; simp [directProbe] at h
  | cons c rest ih =>
    intro j0 j i h
    simp only [directProbe] at h
    split at h
    · exact ih h
    · rcases ho : scanElems c.elems 8 with _ | k
      · rw [ho] at h
        exact ih h
      · rw [ho] at h
        simp only [Option.some.injEq, Prod.mk.injEq] at h
        rw [← h.2]
        exact scanElems_lt ho

theorem directProbe_none :
    ∀ {locs : List CandLoc} {j0 : Nat},
      (∀ c ∈ locs, ∀ k, k < c.elems.length →
        elemActivates (c.elems.getD k hiddenElem) = true → 8 ≤ k) →
      directProbe j0 locs = none := by
  intro locs
  induction locs with
  | nil => intro j0 h; rfl
  | cons c rest ih =>
    intro j0 h
    have hc : scanElems c.elems 8 = none :=
      scanElems_none (h c (by simp))
    simp only [directProbe, hc]
    split
    · exact ih (fun g hg => h g (by simp [hg]))
    · exact ih (fun g hg => h g (by simp [hg]))

/-- C10: in the direct-control probe of `_find_and_click_csv`, each candidate
locator has only its first eight matches examined for visibility and
clicking: any activation the probe reports has element offset below eight,
and if every activatable element of every locator sits at offset eight or
beyond, the probe performs no activation at all. -/
theorem c10_first_eight (locs : List CandLoc) :
    (∀ j0 j i, directProbe j0 locs = some (j, i) → i < 8) ∧
    ((∀ c ∈ locs, ∀ k, k < c.elems.length →
        elemActivates (c.elems.getD k hiddenElem) = true → 8 ≤ k) →
      directProbe 0 locs = none) := by
  constructor
  · intro j0 j i h
    exact directProbe_lt h
  · intro h
    exact directProbe_none h

/-- C10 witness: a locator whose only visible control is its ninth match
(`lateLoc`) yields no activation, while one with a visible third match
(`midLoc`) is activated at offset 2 < 8. -/
theorem c10_first_eight_witness :
    directProbe 0 [lateLoc] = none ∧
    directProbe 0 [midLoc] = some (0, 2) ∧
    elemActivates liveElem = true := by
  refine ⟨(c10_first_eight [lateLoc]).2 (by decide), by decide, rfl⟩

theorem probeFrame_mem_runFrames {t : DateTime} {m : Nat} :
    ∀ {l : List Frame} {k : Nat}, Ev.probeFrame m ∈ (runFrames t k l).1 →
      ∃ j f, l.get? j = some f ∧ m = k + j ∧ f.isMain = false ∧ f.raises = false ∧
        excludedUrl f.url = false := by
  intro l
  induction l with
  | nil => intro k h; simp [runFrames] at h
  | cons f rest ih =>
    intro k h
    simp only [runFrames] at h
    split at h
    · obtain ⟨j, g, hj, hm, h1, h2, h3⟩ := ih h
      exact ⟨j + 1, g, hj, by omega, h1, h2, h3⟩
    · split at h
      · obtain ⟨j, g, hj, hm, h1, h2, h3⟩ := ih h
        exact ⟨j + 1, g, hj, by omega, h1, h2, h3⟩
      · split at h
        · obtain ⟨j, g, hj, hm, h1, h2, h3⟩ := ih h
          exact ⟨j + 1, g, hj, by omega, h1, h2, h3⟩
        · rename_i hmain hraise hex
          split at h
          · split at h
            · simp only [List.mem_cons, List.not_mem_nil, or_false] at h
              rcases h with h | h | h
              · refine ⟨0, f, rfl, ?_, ?_, ?_, ?_⟩
                · cases h; omega
                · simpa using hmain
                · simpa using hraise
                · simpa using hex
              · cases h
              · cases h
            · simp only [List.mem_cons] at h
              rcases h with h | h | h | h
              · refine ⟨0, f, rfl, ?_, ?_, ?_, ?_⟩
                · cases h; omega
                · simpa using hmain
                · simpa using hraise
                · simpa using hex
              · cases h
              · cases h
              · obtain ⟨j, g, hj, hm, h1, h2, h3⟩ := ih h
                exact ⟨j + 1, g, hj, by omega, h1, h2, h3⟩
          · simp only [List.mem_cons] at h
            rcases h with h | h
            · refine ⟨0, f, rfl, ?_, ?_, ?_, ?_⟩
              · cases h; omega
              · simpa using hmain
              · simpa using hraise
              · simpa using hex
            · obtain ⟨j, g, hj, hm, h1, h2, h3⟩ := ih h
              exact ⟨j + 1, g, hj, by omega, h1, h2, h3⟩

theorem runBiz_events_hookClick {t : DateTime} :
    ∀ {l : List BizLoc} {e : Ev}, e ∈ (runBiz t l).1 →
      e = Ev.hookInstalled ∨ e = Ev.clickPerformed := by
  intro l
  induction l with
  | nil => intro e h; simp [runBiz] at h
  | cons b rest ih =>
    intro e h
    simp only [runBiz] at h
    split at h
    · exact ih h
    · split at h
      · split at h
        · split at h
          · simp only [List.mem_cons, List.not_mem_nil, or_false] at h
            rcases h with h | h
            · exact Or.inl h
            · exact Or.inr h
          · simp only [List.mem_cons] at h
            rcases h with h | h | h
            · exact Or.inl h
            · exact Or.inr h
            · exact ih h
        · simp only [List.mem_cons] at h
          rcases h with h | h
          · exact Or.inl h
          · exact ih h
      · exact ih h

theorem runFrames_event_kinds {t : DateTime} :
    ∀ {l : List Frame} {k : Nat} {e : Ev}, e ∈ (runFrames t k l).1 →
      (∃ i, e = Ev.probeFrame i) ∨ e = Ev.clickPerformed ∨ e = Ev.hookInstalled := by
  intro l
  induction l with
  | nil => intro k e h; simp [runFrames] at h
  | cons f rest ih =>
    intro k e h
    simp only [runFrames] at h
    split at h
    · exact ih h
    · split at h
      · exact ih h
      · split at h
        · exact ih h
        · split at h
          · split at h
            · simp only [List.mem_cons, List.not_mem_nil, or_false] at h
              rcases h with h | h | h
              · exact Or.inl ⟨k, h⟩
              · exact Or.inr (Or.inl h)
              · exact Or.inr (Or.inr h)
            · simp only [List.mem_cons] at h
              rcases h with h | h | h | h
              · exact Or.inl ⟨k, h⟩
              · exact Or.inr (Or.inl h)
              · exact Or.inr (Or.inr h)
              · exact ih h
          · simp only [List.mem_cons] at h
            rcases h with h | h
            · exact Or.inl ⟨k, h⟩
            · exact ih h

theorem runFrames_all_excluded {t : DateTime} :
    ∀ {l : List Frame} {k : Nat},
      (∀ g ∈ l, g.clicksCsv = true → excludedUrl g.url = true) →
      (runFrames t k l).2 = none ∧ Ev.clickPerformed ∉ (runFrames t k l).1 := by
  intro l
  induction l with
  | nil => intro k h; simp [runFrames]
  | cons f rest ih =>
    intro k hall
    have hrest : ∀ g ∈ rest, g.clicksCsv = true → excludedUrl g.url = true :=
      fun g hg => hall g (by simp [hg])
    simp only [runFrames]
    split
    · exact ih hrest
    · split
      · exact ih hrest
      · split
        · exact ih hrest
        · rename_i hmain hraise hex
          have hc : f.clicksCsv = false := by
            by_contra hcc
            have hct : f.clicksCsv = true := by
              revert hcc; cases f.clicksCsv <;> simp
            have := hall f (by simp) hct
            simp [this] at hex
          rw [if_neg (by simp [hc])]
          have hr := ih (k := k + 1) hrest
          refine ⟨hr.1, ?_⟩
          simp only [List.mem_cons]
          rintro (h | h)
          · cases h
          · exact hr.2 h

/-- C5: a nested frame whose URL contains a known advertising/analytics token
is never probed by `_find_and_click_csv` — no control-discovery strategy runs
against it, even if the frame holds a matching export control — and when the
only matching control lives in such an excluded frame, the frame-probing pass
performs no activation and yields no capture. -/
theorem c5_frame_exclusion (env : DlEnv) :
    (∀ i f, env.frames.get? i = some f → excludedUrl f.url = true →
      Ev.probeFrame i ∉ (clickDownloadAndSave env).1) ∧
    ((∀ g ∈ env.frames, g.clicksCsv = true → excludedUrl g.url = true) →
      (runFrames env.now 0 env.frames).2 = none ∧
      Ev.clickPerformed ∉ (runFrames env.now 0 env.frames).1) := by
  constructor
  · intro i f hget hex hmem
    have hfr_not : Ev.probeFrame i ∉ (runFrames env.now 0 env.frames).1 := by
      intro hm
      obtain ⟨j, g, hj, hmj, _, _, hexg⟩ := probeFrame_mem_runFrames hm
      have hji : j = i := by omega
      subst hji
      rw [hget] at hj
      injection hj with hfg
      rw [hfg] at hex
      rw [hex] at hexg
      cases hexg
    have hbz_not : ∀ l, Ev.probeFrame i ∉ (runBiz env.now l).1 := by
      intro l hm
      rcases runBiz_events_hookClick hm with h | h <;> cases h
    by_cases hpc : env.pageClicksCsv
    · cases hpd : env.primaryDlArrives <;>
        simp [clickDownloadAndSave, hpc, hpd] at hmem
    · cases hfr : (runFrames env.now 0 env.frames).2 with
      | some q =>
        simp only [clickDownloadAndSave, hpc, Bool.false_eq_true, if_false, hfr] at hmem
        exact hfr_not hmem
      | none =>
        by_cases hbz : env.bizNavOk
        · cases hrb : (runBiz env.now env.bizLocs).2 with
          | some q =>
            simp only [clickDownloadAndSave, hpc, Bool.false_eq_true, if_false, hfr,
              hbz, if_true, hrb, List.mem_append] at hmem
            rcases hmem with h | h
            · exact hfr_not h
            · exact hbz_not env.bizLocs h
          | none =>
            cases hsb : env.sniffBuf with
            | some buf =>
              simp only [clickDownloadAndSave, hpc, Bool.false_eq_true, if_false, hfr,
                hbz, if_true, hrb, hsb, List.mem_append, List.mem_singleton] at hmem
              rcases hmem with (h | h) | h
              · exact hfr_not h
              · exact hbz_not env.bizLocs h
              · cases h
            | none =>
              cases hsp : scrapePass env.tables with
              | some tab =>
                simp only [clickDownloadAndSave, hpc, Bool.false_eq_true, if_false, hfr,
                  hbz, if_true, hrb, hsb, hsp, List.mem_append, List.mem_singleton] at hmem
                rcases hmem with ((h | h) | h) | h
                · exact hfr_not h
                · exact hbz_not env.bizLocs h
                · cases h
                · cases h
              | none =>
                simp only [clickDownloadAndSave, hpc, Bool.false_eq_true, if_false, hfr,
                  hbz, if_true, hrb, hsb, hsp, List.mem_append, List.mem_singleton] at hmem
                rcases hmem with ((h | h) | h) | h
                · exact hfr_not h
                · exact hbz_not env.bizLocs h
                · cases h
                · cases h
        · cases hsb : env.sniffBuf with
          | some buf =>
            simp only [clickDownloadAndSave, hpc, Bool.false_eq_true, if_false, hfr,
              hbz, hsb, List.append_nil, List.mem_append, List.mem_singleton] at hmem
            rcases hmem with h | h
            · exact hfr_not h
            · cases h
          | none =>
            cases hsp : scrapePass env.tables with
            | some tab =>
              simp only [clickDownloadAndSave, hpc, Bool.false_eq_true, if_false, hfr,
                hbz, hsb, hsp, List.append_nil, List.mem_append, List.mem_singleton] at hmem
              rcases hmem with (h | h) | h
              · exact hfr_not h
              · cases h
              · cases h
            | none =>
              simp only [clickDownloadAndSave, hpc, Bool.false_eq_true, if_false, hfr,
                hbz, hsb, hsp, List.append_nil, List.mem_append, List.mem_singleton] at hmem
              rcases hmem with (h | h) | h
              · exact hfr_not h
              · cases h
              · cases h
  · intro hall
    exact runFrames_all_excluded hall

/-- C5 witness: in `adFrameEnv`, whose only frame carries both an ad-token URL
and a working export control, the frame at index 0 is never probed, the frame
pass performs no click, and it yields no capture. -/
theorem c5_frame_exclusion_witness :
    Ev.probeFrame 0 ∉ (clickDownloadAndSave adFrameEnv).1 ∧
    (runFrames adFrameEnv.now 0 adFrameEnv.frames).2 = none ∧
    Ev.clickPerformed ∉ (runFrames adFrameEnv.now 0 adFrameEnv.frames).1 := by
  refine ⟨(c5_frame_exclusion adFrameEnv).1 0 adFrame rfl (by decide), ?_⟩
  exact (c5_frame_exclusion adFrameEnv).2 (by decide)

theorem sniffConsulted_not_runFrames {t : DateTime} {k : Nat} {l : List Frame} :
    Ev.sniffConsulted ∉ (runFrames t k l).1 := by
  intro h
  rcases runFrames_event_kinds h with ⟨i, hi⟩ | hi | hi <;> cases hi

theorem scrapeAttempted_not_runFrames {t : DateTime} {k : Nat} {l : List Frame} :
    Ev.scrapeAttempted ∉ (runFrames t k l).1 := by
  intro h
  rcases runFrames_event_kinds h with ⟨i, hi⟩ | hi | hi <;> cases hi

theorem sniffConsulted_not_runBiz {t : DateTime} {l : List BizLoc} :
    Ev.sniffConsulted ∉ (runBiz t l).1 := by
  intro h
  rcases runBiz_events_hookClick h with hi | hi <;> cases hi

theorem scrapeAttempted_not_runBiz {t : DateTime} {l : List BizLoc} :
    Ev.scrapeAttempted ∉ (runBiz t l).1 := by
  intro h
  rcases runBiz_events_hookClick h with hi | hi <;> cases hi

/-- C7 (amended): when the primary click paths performed no successful
activation — no control on the host page, the frame pass yielded no capture,
the business page yielded none — the fallbacks run in the fixed order: the
sniffer buffer is consulted exactly once (the trace ends with the single
consultation), and the table transcoder is attempted exactly once if and only
if the buffer is empty; the run terminates with the acquisition-exhausted
failure iff both the buffer and the transcoder yield nothing.  The original
claim's "attempted exactly once each" fails in two ways shown by the
counterexample: a primary click whose download times out aborts the run with
neither fallback attempted, and a successful sniff ends the run with the
transcoder never attempted. -/
theorem c7_fallback_order (env : DlEnv)
    (h1 : env.pageClicksCsv = false)
    (h2 : (runFrames env.now 0 env.frames).2 = none)
    (h3 : (if env.bizNavOk then runBiz env.now env.bizLocs else ([], none)).2 = none) :
    ((clickDownloadAndSave env).2 = Outcome.exhausted ↔
      env.sniffBuf = none ∧ scrapePass env.tables = none) ∧
    (∃ pre,
      Ev.sniffConsulted ∉ pre ∧ Ev.scrapeAttempted ∉ pre ∧
      ((∃ b, env.sniffBuf = some b ∧
          (clickDownloadAndSave env).1 = pre ++ [Ev.sniffConsulted]) ∨
        (env.sniffBuf = none ∧
          (clickDownloadAndSave env).1
            = pre ++ [Ev.sniffConsulted, Ev.scrapeAttempted]))) := by
  have hbzEv : Ev.sniffConsulted
        ∉ (if env.bizNavOk then runBiz env.now env.bizLocs else ([], none)).1 ∧
      Ev.scrapeAttempted
        ∉ (if env.bizNavOk then runBiz env.now env.bizLocs else ([], none)).1 := by
    by_cases hbz : env.bizNavOk
    · rw [if_pos hbz]
      exact ⟨sniffConsulted_not_runBiz, scrapeAttempted_not_runBiz⟩
    · rw [if_neg hbz]
      simp
  have hpre1 : Ev.sniffConsulted ∉ (runFrames env.now 0 env.frames).1 ++
      (if env.bizNavOk then runBiz env.now env.bizLocs else ([], none)).1 := by
    intro hx
    rcases List.mem_append.mp hx with hx | hx
    · exact sniffConsulted_not_runFrames hx
    · exact hbzEv.1 hx
  have hpre2 : Ev.scrapeAttempted ∉ (runFrames env.now 0 env.frames).1 ++
      (if env.bizNavOk then runBiz env.now env.bizLocs else ([], none)).1 := by
    intro hx
    rcases List.mem_append.mp hx with hx | hx
    · exact scrapeAttempted_not_runFrames hx
    · exact hbzEv.2 hx
  cases hsb : env.sniffBuf with
  | some b =>
    constructor
    · constructor
      · intro hx
        simp [clickDownloadAndSave, h1, h2, h3, hsb] at hx
      · rintro ⟨hn, _⟩
        cases hn
    · refine ⟨(runFrames env.now 0 env.frames).1 ++
        (if env.bizNavOk then runBiz env.now env.bizLocs else ([], none)).1,
        hpre1, hpre2, Or.inl ⟨b, rfl, ?_⟩⟩
      simp [clickDownloadAndSave, h1, h2, h3, hsb]
  | none =>
    cases hsp : scrapePass env.tables with
    | some tab =>
      constructor
      · constructor
        · intro hx
          simp [clickDownloadAndSave, h1, h2, h3, hsb, hsp] at hx
        · rintro ⟨_, hn⟩
          cases hn
      · refine ⟨(runFrames env.now 0 env.frames).1 ++
          (if env.bizNavOk then runBiz env.now env.bizLocs else ([], none)).1,
          hpre1, hpre2, Or.inr ⟨rfl, ?_⟩⟩
        simp [clickDownloadAndSave, h1, h2, h3, hsb, hsp]
    | none =>
      constructor
      · constructor
        · intro _
          exact ⟨rfl, rfl⟩
        · intro _
          simp [clickDownloadAndSave, h1, h2, h3, hsb, hsp]
      · refine ⟨(runFrames env.now 0 env.frames).1 ++
          (if env.bizNavOk then runBiz env.now env.bizLocs else ([], none)).1,
          hpre1, hpre2, Or.inr ⟨rfl, ?_⟩⟩
        simp [clickDownloadAndSave, h1, h2, h3, hsb, hsp]

/-- C7 witness: in the everything-fails environment the run terminates with
acquisition exhausted, obtained through the amended fallback theorem. -/
theorem c7_fallback_order_witness :
    (clickDownloadAndSave emptyEnv).2 = Outcome.exhausted :=
  (c7_fallback_order emptyEnv rfl rfl rfl).1.mpr ⟨rfl, rfl⟩

/-- C7 counterexample to the claim as stated: two concrete runs in which the
Control Discovery Cascade produced no capture and yet the fallback extractors
are NOT each attempted exactly once.  In `timeoutEnv` the primary control was
clicked but no download materialized: the `expect_download` timeout of
lines 478-479 is uncaught, the run aborts before either fallback (both
attempt counts are zero) and the terminal outcome is the timeout, not
acquisition-exhausted, even though the sniffer buffer held data.  In
`sniffHitEnv` the sniffer succeeds and the transcoder is attempted zero
times. -/
theorem c7_counterexample :
    ((clickDownloadAndSave timeoutEnv).2 = Outcome.downloadTimeout ∧
      ((clickDownloadAndSave timeoutEnv).1.count Ev.sniffConsulted = 0 ∧
        (clickDownloadAndSave timeoutEnv).1.count Ev.scrapeAttempted = 0) ∧
      timeoutEnv.sniffBuf = some [49, 50]) ∧
    ((clickDownloadAndSave sniffHitEnv).2
        = Outcome.captured (stampPath "turo_earnings_sniffed_" t0) Source.sniff ∧
      (clickDownloadAndSave sniffHitEnv).1.count Ev.scrapeAttempted = 0 ∧
      scrapePass sniffHitEnv.tables ≠ none) := by
  refine ⟨⟨rfl, by decide, rfl⟩, ⟨rfl, by decide, by decide⟩⟩

theorem normRow_length (w : Nat) (r : List String) : (normRow w r).length = w := by
  unfold normRow
  split
  · rename_i h
    simp only [List.length_append, List.length_replicate]
    omega
  · split
    · rename_i h
      simp only [List.length_take]
      omega
    · rename_i h1 h2
      omega

/-- C4: the DOM-table transcoder normalizes every emitted row to exactly the
header's column count — for a table whose header cells are present, every
output row has the header's width, a kept row with fewer cells is padded on
the right with empty strings, and one with more cells is truncated to its
first header-width cells; the output has one row per kept input row.  (The
witness instantiates the spec's synthetic table: header width 4 and rows of
widths 2, 4 and 6.) -/
theorem c4_row_normalization (hdr0 : List String) (raw : List (List String))
    (hne : hdr0 ≠ []) :
    ∀ out, extractTable hdr0 raw = some out →
      out.1 = hdr0 ∧
      out.2.length = (keptRows raw).length ∧
      (∀ r ∈ out.2, r.length = hdr0.length) ∧
      out.2 = (keptRows raw).map (normRow hdr0.length) ∧
      (∀ r ∈ keptRows raw,
        (r.length ≤ hdr0.length →
          normRow hdr0.length r = r ++ List.replicate (hdr0.length - r.length) "") ∧
        (hdr0.length ≤ r.length → normRow hdr0.length r = r.take hdr0.length)) := by
  intro out hout
  have hie : hdr0.isEmpty = false := by
    cases hdr0 with
    | nil => exact absurd rfl hne
    | cons a l => rfl
  have hhe : effHdr hdr0 (keptRows raw) = hdr0 := by
    simp [effHdr, hie]
  have hwi : tblWidth hdr0 (keptRows raw) = hdr0.length := by
    simp [tblWidth, hie]
  simp only [extractTable, hhe, hwi] at hout
  split at hout
  · cases hout
  · simp only [Option.some.injEq] at hout
    subst hout
    refine ⟨rfl, by simp, ?_, rfl, ?_⟩
    · intro r hr
      obtain ⟨r0, _, hr0⟩ := List.mem_map.mp hr
      rw [← hr0]
      exact normRow_length hdr0.length r0
    · intro r _
      constructor
      · intro hle
        unfold normRow
        rcases Nat.lt_or_ge r.length hdr0.length with hlt | hge
        · rw [if_pos hlt]
        · have heq : r.length = hdr0.length := by omega
          rw [if_neg (by omega), if_neg (by omega), heq]
          simp
      · intro hge
        unfold normRow
        rcases Nat.lt_or_ge hdr0.length r.length with hlt | hge2
        · rw [if_neg (by omega), if_pos hlt]
        · have heq : r.length = hdr0.length := by omega
          rw [if_neg (by omega), if_neg (by omega), ← heq, List.take_length]

/-- C4 witness: the spec's synthetic table — header width 4, rows of widths
2, 4 and 6 — yields exactly three output rows of width 4, the width-2 row
padded with two empty fields and the width-6 row truncated to its first
four. -/
theorem c4_row_normalization_witness :
    extractTable ["A", "B", "C", "D"]
        [["a", "b"], ["c", "d", "e", "f"], ["g", "h", "i", "j", "k", "l"]]
      = some (["A", "B", "C", "D"],
          [["a", "b", "", ""], ["c", "d", "e", "f"], ["g", "h", "i", "j"]]) ∧
    (["a", "b", "", ""] : List String).length = (["A", "B", "C", "D"] : List String).length := by
  refine ⟨by decide, ?_⟩
  exact (c4_row_normalization ["A", "B", "C", "D"]
      [["a", "b"], ["c", "d", "e", "f"], ["g", "h", "i", "j", "k", "l"]] (by decide)
      (["A", "B", "C", "D"],
        [["a", "b", "", ""], ["c", "d", "e", "f"], ["g", "h", "i", "j"]])
      (by decide)).2.2.1 ["a", "b", "", ""] (by decide)

end TuroDl
